import Mathlib

/-!
Shallow embedding of the weather-car-cover application.

The embedding follows the TypeScript source:
  * `src/utils/weather.ts`   : `DailyWeather`, `getCarCoverAdvice`,
    `adviceLabel`, `adviceColor`
  * `src/screens/WeatherScreen.tsx` : `describeWeatherCode` and the
    `fetchWeather` acquisition cycle (permission, location, reverse
    geocoding, HTTP fetch, normalization, truncation to 7 days).

JavaScript numbers are modelled as rationals (`ℚ`) and weather codes as
integers (`ℤ`).  Fields that the running code guards against being
`undefined` (with `?.` or `??`) are modelled as `Option`; out-of-range
array indexing, which yields `undefined` in JavaScript, is modelled with
`List.get?`.  The four asynchronous collaborator calls of the cycle are
modelled as explicit inputs (`Except` for the fallible ones), and the
cycle is a pure function from those inputs to the final published state.
-/

namespace WeatherCarCover

/-- One entry of the `weather` array of `DailyWeather` in
`src/utils/weather.ts` (fields `id`, `main`, `description`, `icon`). -/
structure WeatherCond where
  id : ℤ
  main : String
  description : String
  icon : String
  deriving Repr, DecidableEq

/-- Temperature record `{ min, max }` of `DailyWeather`.  The fields are
`Option ℚ` because at run time the normalizer reads them by raw array
indexing, which in JavaScript yields `undefined` past the end of the
array. -/
structure Temp where
  min : Option ℚ
  max : Option ℚ
  deriving Repr, DecidableEq

/-- The internal per-day forecast record `DailyWeather` of
`src/utils/weather.ts`.  `pop` and `weather` are `Option` because
`getCarCoverAdvice` defends against their absence with `?? 0` and
`?.[0]?.id ?? 800`. -/
structure DailyWeather where
  dt : ℤ
  temp : Temp
  pop : Option ℚ
  weather : Option (List WeatherCond)
  deriving Repr, DecidableEq

/-- The three advice categories of `CarCoverAdvice`. -/
inductive CarCoverAdvice where
  | cover
  | optional
  | no
  deriving Repr, DecidableEq

/-- The precipitation probability read by `getCarCoverAdvice`:
`const pop = d.pop ?? 0`. -/
def popRead (d : DailyWeather) : ℚ := d.pop.getD 0

/-- The first condition code read by `getCarCoverAdvice`:
`const code = d.weather?.[0]?.id ?? 800`. -/
def codeRead (d : DailyWeather) : ℤ :=
  ((d.weather.bind List.head?).map WeatherCond.id).getD 800

/-- The advisory classifier `getCarCoverAdvice` of `src/utils/weather.ts`. -/
def getCarCoverAdvice (d : DailyWeather) : CarCoverAdvice :=
  let pop := popRead d
  let code := codeRead d
  if (2 : ℚ)/5 ≤ pop ∨ (200 ≤ code ∧ code < 600) then CarCoverAdvice.no
  else if (1 : ℚ)/5 ≤ pop then CarCoverAdvice.optional
  else CarCoverAdvice.cover

/-- Display label `adviceLabel` of `src/utils/weather.ts`. -/
def adviceLabel : CarCoverAdvice → String
  | CarCoverAdvice.cover => "Cover your car"
  | CarCoverAdvice.optional => "Cover optional"
  | CarCoverAdvice.no => "No cover needed"

/-- Display color `adviceColor` of `src/utils/weather.ts` (red for `no`,
orange for `optional`, green for `cover`). -/
def adviceColor : CarCoverAdvice → String
  | CarCoverAdvice.no => "#dc2626"
  | CarCoverAdvice.optional => "#f97316"
  | CarCoverAdvice.cover => "#16a34a"

/-- Function `describeWeatherCode` of `src/screens/WeatherScreen.tsx`;
the argument type mirrors its TypeScript signature
`code: number | undefined`, and `none` models the `code == null` guard. -/
def describeWeatherCode : Option ℤ → String
  | none => ""
  | some code =>
    if code = 0 then "Clear sky"
    else if code = 1 ∨ code = 2 then "Mainly clear"
    else if code = 3 then "Cloudy"
    else if 45 ≤ code ∧ code ≤ 48 then "Fog"
    else if 51 ≤ code ∧ code ≤ 57 then "Drizzle"
    else if 61 ≤ code ∧ code ≤ 67 then "Rain"
    else if 71 ≤ code ∧ code ≤ 77 then "Snow"
    else if 80 ≤ code ∧ code ≤ 82 then "Rain showers"
    else if 95 ≤ code ∧ code ≤ 99 then "Thunderstorm"
    else "Weather code " ++ toString code

/-- The `daily` object of the Open-Meteo response
(`OpenMeteoDaily` in `src/screens/WeatherScreen.tsx`).  `time` is
`Option` because the code guards `!d.time` at run time;
`precipitation_probability_max` and `weathercode` are optional in the
TypeScript type itself. -/
structure OpenMeteoDaily where
  time : Option (List String)
  temperature_2m_max : List ℚ
  temperature_2m_min : List ℚ
  precipitation_probability_max : Option (List ℚ)
  weathercode : Option (List ℤ)
  deriving Repr, DecidableEq

/-- The Open-Meteo response body (`OpenMeteoResponse`); `daily` is
`Option` because the code guards `!d` at run time. -/
structure OpenMeteoResponse where
  daily : Option OpenMeteoDaily
  deriving Repr, DecidableEq

/-- Raw precipitation probability at a day index:
`d.precipitation_probability_max?.[index] ?? 0`. -/
def popRawAt (d : OpenMeteoDaily) (i : ℕ) : ℚ :=
  (d.precipitation_probability_max.bind (fun l => l.get? i)).getD 0

/-- Weather code at a day index: `d.weathercode?.[index] ?? 0`. -/
def codeAt (d : OpenMeteoDaily) (i : ℕ) : ℤ :=
  (d.weathercode.bind (fun l => l.get? i)).getD 0

/-- The per-day mapping body of `d.time.map((dateStr, index) => ...)` in
`fetchWeather`.  `dtOf` abstracts the JavaScript date parsing
`Math.round(new Date(dateStr + "T12:00:00").getTime() / 1000)`, which no
claim depends on.  Raw indexing into the temperature arrays yields
`undefined` (here `none`) past their end, exactly as in JavaScript. -/
def mapDay (dtOf : String → ℤ) (d : OpenMeteoDaily) (dateStr : String) (index : ℕ) :
    DailyWeather :=
  let max := d.temperature_2m_max.get? index
  let min := d.temperature_2m_min.get? index
  let popRaw := popRawAt d index
  let code := codeAt d index
  let description := describeWeatherCode (some code)
  { dt := dtOf dateStr
    temp := { min := min, max := max }
    pop := some (popRaw / 100)
    weather := some [{ id := code, main := description,
                       description := description, icon := "" }] }

/-- The validation and mapping part of `fetchWeather` (steps on
`res.data.daily`): throw `"No daily forecast data received."` when the
daily object or its date series is missing or the date series is empty,
otherwise map every date to a `DailyWeather`. -/
def normalizeDaily (dtOf : String → ℤ) (daily : Option OpenMeteoDaily) :
    Except String (List DailyWeather) :=
  match daily with
  | none => Except.error "No daily forecast data received."
  | some d =>
    match d.time with
    | none => Except.error "No daily forecast data received."
    | some ts =>
      if ts.length = 0 then Except.error "No daily forecast data received."
      else Except.ok (ts.enum.map (fun p => mapDay dtOf d p.2 p.1))

/-- Address candidate returned by `Location.reverseGeocodeAsync`; the
fields the code reads are `city`, `region` and `country`, each nullable. -/
structure Address where
  city : Option String
  region : Option String
  country : Option String
  deriving Repr, DecidableEq

/-- The human-readable place built from the first address candidate:
`[addr.city, addr.region, addr.country].filter(Boolean).join(", ") ||
"Unknown location"`.  `filter(Boolean)` drops both `null` fields and
empty strings, both falsy in JavaScript. -/
def niceName (addr : Address) : String :=
  let parts := ([addr.city, addr.region, addr.country].filterMap id).filter
    (fun s => s ≠ "")
  let joined := String.intercalate ", " parts
  if joined = "" then "Unknown location" else joined

/-- The place published by the reverse-geocoding step of `fetchWeather`:
`none` models the catch branch (`setPlace(null)`), and a `null` or empty
candidate list yields `"Unknown location"`. -/
def placeName (geocode : Except String (Option (List Address))) : Option String :=
  match geocode with
  | Except.error _ => none
  | Except.ok results =>
    match results with
    | none => some "Unknown location"
    | some [] => some "Unknown location"
    | some (addr :: _) => some (niceName addr)

/-- Geographic coordinates from `Location.getCurrentPositionAsync`. -/
structure Coords where
  lat : ℚ
  lon : ℚ
  deriving Repr, DecidableEq

/-- The outcomes of the four collaborator calls of one `fetchWeather`
cycle: the permission status, the position lookup, the reverse-geocoding
call (its success value may be `null` or a candidate list) and the HTTP
fetch.  Each fallible call carries its failure message. -/
structure CycleInput where
  granted : Bool
  loc : Except String Coords
  geocode : Except String (Option (List Address))
  http : Except String OpenMeteoResponse
  deriving Repr

/-- The state published at the end of one `fetchWeather` cycle: the
`error`, `daily`, `place` and `coords` state variables, plus whether the
HTTP request to the weather provider was issued during the cycle. -/
structure CycleState where
  error : Option String
  daily : List DailyWeather
  place : Option String
  coords : Option Coords
  networkCalled : Bool
  deriving Repr, DecidableEq

/-- One `fetchWeather` cycle of `src/screens/WeatherScreen.tsx`, starting
from the initial state (`error = null`, `daily = []`, `place = null`):
permission check, position lookup, best-effort reverse geocoding, HTTP
fetch, validation and mapping, truncation `mapped.slice(0, 7)`.  A thrown
error is caught and its message published via `setError(err?.message)`. -/
def fetchWeatherCycle (dtOf : String → ℤ) (inp : CycleInput) : CycleState :=
  if !inp.granted then
    { error := some "Location permission denied. Enable it in Settings."
      daily := [], place := none, coords := none, networkCalled := false }
  else
    match inp.loc with
    | Except.error msg =>
      { error := some msg, daily := [], place := none, coords := none
        networkCalled := false }
    | Except.ok c =>
      let pl := placeName inp.geocode
      match inp.http with
      | Except.error msg =>
        { error := some msg, daily := [], place := pl, coords := some c
          networkCalled := true }
      | Except.ok resp =>
        match normalizeDaily dtOf resp.daily with
        | Except.error msg =>
          { error := some msg, daily := [], place := pl, coords := some c
            networkCalled := true }
        | Except.ok mapped =>
          { error := none, daily := mapped.take 7, place := pl, coords := some c
            networkCalled := true }

/-- Spec-side description table, written from the words of the spec
(section 4.2): first match wins over the listed ranges, else
`"Weather code "` followed by the code, and an absent code maps to the
empty description.  Used only to compare with `describeWeatherCode`. -/
def descTableSpec : Option ℤ → String
  | none => ""
  | some c =>
    if c = 0 then "Clear sky"
    else if c = 1 ∨ c = 2 then "Mainly clear"
    else if c = 3 then "Cloudy"
    else if 45 ≤ c ∧ c ≤ 48 then "Fog"
    else if 51 ≤ c ∧ c ≤ 57 then "Drizzle"
    else if 61 ≤ c ∧ c ≤ 67 then "Rain"
    else if 71 ≤ c ∧ c ≤ 77 then "Snow"
    else if 80 ≤ c ∧ c ≤ 82 then "Rain showers"
    else if 95 ≤ c ∧ c ≤ 99 then "Thunderstorm"
    else "Weather code " ++ toString c

/-- Success test on `Except`. -/
def exceptIsOk {ε α : Type} : Except ε α → Bool
  | Except.ok _ => true
  | Except.error _ => false

/-- A nullable string field that is falsy in JavaScript: `null` or the
empty string. -/
def blankField (o : Option String) : Prop :=
  o = none ∨ o = some ""

/-- Trivial date-parsing stand-in used to instantiate the abstract `dtOf`
argument at concrete inputs. -/
def dtOf0 : String → ℤ := fun _ => 0

/-- Synthetic daily object with ten entries, used to exercise the 7-day
truncation. -/
def dTen : OpenMeteoDaily :=
  { time := some ["d1", "d2", "d3", "d4", "d5", "d6", "d7", "d8", "d9", "d10"]
    temperature_2m_max := [1, 2, 3, 4, 5, 6, 7, 8, 9, 10]
    temperature_2m_min := [0, 1, 2, 3, 4, 5, 6, 7, 8, 9]
    precipitation_probability_max := some [10, 20, 30, 40, 50, 60, 70, 80, 90, 100]
    weathercode := some [0, 1, 2, 3, 45, 51, 61, 71, 80, 95] }

/-- Cycle input whose HTTP fetch returns the ten-entry daily object. -/
def inpTen : CycleInput :=
  { granted := true
    loc := Except.ok { lat := 40, lon := -75 }
    geocode := Except.ok none
    http := Except.ok { daily := some dTen } }

/-- Daily object whose probability array is pre-scaled to the unit
interval (the synthetic response of the idempotence test). -/
def dPreScaled : OpenMeteoDaily :=
  { time := some ["2025-11-17"]
    temperature_2m_max := [15]
    temperature_2m_min := [5]
    precipitation_probability_max := some [1/2]
    weathercode := some [0] }

/-- Daily object whose parallel per-day arrays are mismatched: two dates
but only one temperature entry each. -/
def dMismatch : OpenMeteoDaily :=
  { time := some ["2025-11-17", "2025-11-18"]
    temperature_2m_max := [15]
    temperature_2m_min := [5]
    precipitation_probability_max := some [50]
    weathercode := some [61] }

/-- Cycle input whose HTTP fetch returns the mismatched daily object. -/
def inpMismatch : CycleInput :=
  { granted := true
    loc := Except.ok { lat := 40, lon := -75 }
    geocode := Except.ok none
    http := Except.ok { daily := some dMismatch } }

/-- Daily object with no weather-code array at all. -/
def dNoCode : OpenMeteoDaily :=
  { time := some ["2025-11-17"]
    temperature_2m_max := [15]
    temperature_2m_min := [5]
    precipitation_probability_max := some [50]
    weathercode := none }

/-- Cycle input whose permission request is denied. -/
def inpDenied : CycleInput :=
  { granted := false
    loc := Except.error ""
    geocode := Except.error ""
    http := Except.error "" }

/-- Daily object with an empty date series. -/
def dEmptyDates : OpenMeteoDaily :=
  { time := some []
    temperature_2m_max := []
    temperature_2m_min := []
    precipitation_probability_max := none
    weathercode := none }

/-- Cycle input whose HTTP fetch returns a daily object with an empty
date series. -/
def inpEmptyDates : CycleInput :=
  { granted := true
    loc := Except.ok { lat := 40, lon := -75 }
    geocode := Except.ok none
    http := Except.ok { daily := some dEmptyDates } }

end WeatherCarCover

namespace WeatherCarCover

/-- C1: the classifier returns the red category `no` if and only if the
precipitation probability (default 0 when absent) is at least 0.4 or the
first condition code (default 800 when absent) lies in [200, 600). -/
theorem advice_no_iff (d : DailyWeather) :
    getCarCoverAdvice d = CarCoverAdvice.no ↔
      ((2 : ℚ)/5 ≤ popRead d ∨ (200 ≤ codeRead d ∧ codeRead d < 600)) := by
  unfold getCarCoverAdvice
  by_cases h : (2 : ℚ)/5 ≤ popRead d ∨ (200 ≤ codeRead d ∧ codeRead d < 600)
  · simp [h]
  · rw [if_neg h]
    simp only [h, iff_false]
    split
    · intro hcontra
      exact CarCoverAdvice.noConfusion hcontra
    · intro hcontra
      exact CarCoverAdvice.noConfusion hcontra

/-- C2: when the precipitation probability is below 0.4 and the first
condition code lies outside [200, 600), the classifier returns
`optional` when the probability is at least 0.2 and `cover` when it is
below 0.2. -/
theorem advice_below_storm (d : DailyWeather)
    (hpop : popRead d < (2 : ℚ)/5)
    (hcode : ¬ (200 ≤ codeRead d ∧ codeRead d < 600)) :
    (((1 : ℚ)/5 ≤ popRead d → getCarCoverAdvice d = CarCoverAdvice.optional) ∧
     (popRead d < (1 : ℚ)/5 → getCarCoverAdvice d = CarCoverAdvice.cover)) := by
  have hno : ¬ ((2 : ℚ)/5 ≤ popRead d ∨ (200 ≤ codeRead d ∧ codeRead d < 600)) := by
    intro hor
    rcases hor with h | h
    · exact absurd h (not_le.mpr hpop)
    · exact hcode h
  constructor
  · intro h2
    unfold getCarCoverAdvice
    rw [if_neg hno, if_pos h2]
  · intro h2
    unfold getCarCoverAdvice
    rw [if_neg hno, if_neg (not_le.mpr h2)]

/-- Witness for C2 at a concrete forecast with probability 0.3 and code
800, and at one with probability 0.1. -/
theorem advice_below_storm_witness :
    (getCarCoverAdvice ⟨0, ⟨some 5, some 10⟩, some (3/10), some [⟨800, "", "", ""⟩]⟩
        = CarCoverAdvice.optional) ∧
    (getCarCoverAdvice ⟨0, ⟨some 5, some 10⟩, some (1/10), some [⟨800, "", "", ""⟩]⟩
        = CarCoverAdvice.cover) := by
  refine ⟨?_, ?_⟩
  · exact (advice_below_storm _ (by norm_num [popRead]) (by norm_num [codeRead])).1
      (by norm_num [popRead])
  · exact (advice_below_storm _ (by norm_num [popRead]) (by norm_num [codeRead])).2
      (by norm_num [popRead])

/-- C3 counterexample: feeding a probability value that is already in the
unit interval (0.5) through the per-day normalization divides it by 100
anyway, yielding 0.005 instead of leaving it at 0.5 — the scaling is not
idempotent. -/
theorem prescaled_pop_rescaled_cex :
    (mapDay dtOf0 dPreScaled "2025-11-17" 0).pop = some ((1 : ℚ)/200) ∧
    ((1 : ℚ)/200 ≠ (1 : ℚ)/2) := by
  constructor
  · show some (popRawAt dPreScaled 0 / 100) = some ((1 : ℚ)/200)
    have h : popRawAt dPreScaled 0 = (1 : ℚ)/2 := rfl
    rw [h]
    norm_num
  · norm_num

/-- C3 amended: the normalizer divides the raw probability by 100
unconditionally and exactly once (the published value is literally the
raw value over 100), and for provider-native raw values in [0, 100] the
published value lies in the unit interval; it is not idempotent on
pre-scaled values. -/
theorem pop_divided_once (dtOf : String → ℤ) (d : OpenMeteoDaily)
    (s : String) (i : ℕ) :
    (mapDay dtOf d s i).pop = some (popRawAt d i / 100) ∧
    (0 ≤ popRawAt d i ∧ popRawAt d i ≤ 100 →
      0 ≤ popRawAt d i / 100 ∧ popRawAt d i / 100 ≤ 1) := by
  refine ⟨rfl, fun h => ⟨div_nonneg h.1 (by norm_num), ?_⟩⟩
  rw [div_le_one (by norm_num)]
  linarith [h.2]

/-- C4 counterexample: a response whose temperature arrays are shorter
than its date series (two dates, one temperature each) is not rejected —
the cycle ends with no error and publishes two days. -/
theorem mismatched_arrays_ready_cex :
    dMismatch.temperature_2m_max.length ≠ (dMismatch.time.getD []).length ∧
    (fetchWeatherCycle dtOf0 inpMismatch).error = none ∧
    (fetchWeatherCycle dtOf0 inpMismatch).daily.length = 2 := by
  refine ⟨by decide, rfl, rfl⟩

/-- C4 amended: normalization succeeds exactly when the date series is
present and non-empty; the lengths of the other parallel arrays are
never checked, out-of-range reads yielding absent temperatures and
default 0 for probability and code. -/
theorem normalize_ignores_length_mismatch (dtOf : String → ℤ) (d : OpenMeteoDaily) :
    exceptIsOk (normalizeDaily dtOf (some d)) = !(d.time.getD []).isEmpty := by
  cases ht : d.time with
  | none => simp [normalizeDaily, ht, exceptIsOk]
  | some ts =>
    cases ts with
    | nil => simp [normalizeDaily, ht, exceptIsOk]
    | cons a l => simp [normalizeDaily, ht, exceptIsOk]

/-- C5 counterexample: when the weather-code array is absent the
normalized description is "Clear sky" (the code defaults to 0 before the
lookup), not the empty string. -/
theorem absent_code_clear_sky_cex :
    (mapDay dtOf0 dNoCode "2025-11-17" 0).weather =
      some [{ id := 0, main := "Clear sky", description := "Clear sky", icon := "" }] ∧
    ("Clear sky" ≠ "") := by
  refine ⟨by decide, by decide⟩

/-- C5 amended: the normalized description equals the fixed lookup table
applied to the weather code defaulted to 0 when absent;
`describeWeatherCode` itself maps an absent code to the empty string,
but the normalizer never passes it an absent code. -/
theorem description_from_defaulted_code :
    (∀ co : Option ℤ, describeWeatherCode co = descTableSpec co) ∧
    describeWeatherCode none = "" ∧
    (∀ (dtOf : String → ℤ) (d : OpenMeteoDaily) (s : String) (i : ℕ),
      (mapDay dtOf d s i).weather =
        some [{ id := codeAt d i
                main := describeWeatherCode (some (codeAt d i))
                description := describeWeatherCode (some (codeAt d i))
                icon := "" }]) := by
  refine ⟨fun co => ?_, rfl, fun dtOf d s i => rfl⟩
  cases co <;> rfl

/-- C6: when the cycle reaches the mapping step, the published day
sequence has length `min n 7` for a provider date series of length `n`,
and its entry at every index below 7 is the mapped provider entry at the
same index, in provider order. -/
theorem published_first_seven (dtOf : String → ℤ) (inp : CycleInput)
    (c : Coords) (resp : OpenMeteoResponse) (d : OpenMeteoDaily) (ts : List String)
    (hg : inp.granted = true) (hloc : inp.loc = Except.ok c)
    (hhttp : inp.http = Except.ok resp) (hd : resp.daily = some d)
    (ht : d.time = some ts) (hne : ts ≠ []) :
    (fetchWeatherCycle dtOf inp).daily.length = min ts.length 7 ∧
    ∀ i : ℕ, i < 7 →
      (fetchWeatherCycle dtOf inp).daily[i]? =
        (ts[i]?).map (fun s => mapDay dtOf d s i) := by
  have hnz : ¬ ts.length = 0 := fun h => hne (List.length_eq_zero.mp h)
  have hcycle : (fetchWeatherCycle dtOf inp).daily =
      (ts.enum.map (fun p => mapDay dtOf d p.2 p.1)).take 7 := by
    simp [fetchWeatherCycle, hg, hloc, hhttp, normalizeDaily, hd, ht, hnz]
  rw [hcycle]
  constructor
  · rw [List.length_take, List.length_map, List.enum_length, Nat.min_comm]
  · intro i hi
    rw [List.getElem?_take_of_lt hi, List.getElem?_map, List.getElem?_enum]
    cases h : ts[i]? <;> rfl

/-- Witness for C6: the synthetic ten-entry response is published as
exactly seven days. -/
theorem published_first_seven_witness :
    (fetchWeatherCycle dtOf0 inpTen).daily.length = 7 := by
  have h := (published_first_seven dtOf0 inpTen { lat := 40, lon := -75 }
      { daily := some dTen } dTen
      ["d1", "d2", "d3", "d4", "d5", "d6", "d7", "d8", "d9", "d10"]
      rfl rfl rfl rfl rfl (by decide)).1
  simpa using h

/-- C7: whenever the HTTP fetch succeeds but its daily object or date
series is missing, or the date series is empty, the cycle ends in the
error state with exactly the distinguished message. -/
theorem empty_dates_error (dtOf : String → ℤ) (inp : CycleInput)
    (c : Coords) (resp : OpenMeteoResponse)
    (hg : inp.granted = true) (hloc : inp.loc = Except.ok c)
    (hhttp : inp.http = Except.ok resp)
    (hbad : resp.daily = none ∨
      ∃ d, resp.daily = some d ∧ (d.time = none ∨ d.time = some [])) :
    (fetchWeatherCycle dtOf inp).error = some "No daily forecast data received." := by
  have hnorm : normalizeDaily dtOf resp.daily =
      Except.error "No daily forecast data received." := by
    rcases hbad with h | ⟨d, hd, h2 | h2⟩
    · simp [normalizeDaily, h]
    · simp [normalizeDaily, hd, h2]
    · simp [normalizeDaily, hd, h2]
  simp [fetchWeatherCycle, hg, hloc, hhttp, hnorm]

/-- Witness for C7: a concrete response with an empty date series ends
the cycle with the distinguished message. -/
theorem empty_dates_error_witness :
    (fetchWeatherCycle dtOf0 inpEmptyDates).error =
      some "No daily forecast data received." :=
  empty_dates_error dtOf0 inpEmptyDates { lat := 40, lon := -75 }
    { daily := some dEmptyDates } rfl rfl rfl
    (Or.inr ⟨dEmptyDates, rfl, Or.inr rfl⟩)

/-- C8: when location permission is denied the cycle ends in the error
state with a message that starts with "Location permission denied", and
no HTTP request to the weather provider is issued; the cycle halts
there. -/
theorem permission_denied_no_network (dtOf : String → ℤ) (inp : CycleInput)
    (h : inp.granted = false) :
    (∃ rest, (fetchWeatherCycle dtOf inp).error =
      some ("Location permission denied" ++ rest)) ∧
    (fetchWeatherCycle dtOf inp).networkCalled = false := by
  have hc : fetchWeatherCycle dtOf inp =
      { error := some "Location permission denied. Enable it in Settings."
        daily := [], place := none, coords := none, networkCalled := false } := by
    simp [fetchWeatherCycle, h]
  rw [hc]
  exact ⟨⟨". Enable it in Settings.", rfl⟩, rfl⟩

/-- Witness for C8 at the concrete denied input. -/
theorem permission_denied_no_network_witness :
    (∃ rest, (fetchWeatherCycle dtOf0 inpDenied).error =
      some ("Location permission denied" ++ rest)) ∧
    (fetchWeatherCycle dtOf0 inpDenied).networkCalled = false :=
  permission_denied_no_network dtOf0 inpDenied rfl

/-- C9: a failing reverse-geocoding call is swallowed: the published
place is absent, and the error and day sequence of the cycle are the
same as for the identical cycle with any other reverse-geocoding
outcome. -/
theorem geocode_failure_swallowed (dtOf : String → ℤ) (g : Bool)
    (l : Except String Coords) (e : String)
    (ht : Except String OpenMeteoResponse)
    (geo2 : Except String (Option (List Address))) :
    (fetchWeatherCycle dtOf ⟨g, l, Except.error e, ht⟩).place = none ∧
    (fetchWeatherCycle dtOf ⟨g, l, Except.error e, ht⟩).error =
      (fetchWeatherCycle dtOf ⟨g, l, geo2, ht⟩).error ∧
    (fetchWeatherCycle dtOf ⟨g, l, Except.error e, ht⟩).daily =
      (fetchWeatherCycle dtOf ⟨g, l, geo2, ht⟩).daily := by
  cases g with
  | false => simp [fetchWeatherCycle]
  | true =>
    cases l with
    | error m => simp [fetchWeatherCycle]
    | ok c =>
      cases ht with
      | error m => simp [fetchWeatherCycle, placeName]
      | ok resp =>
        cases hnd : normalizeDaily dtOf resp.daily with
        | error m => simp [fetchWeatherCycle, placeName, hnd]
        | ok mapped => simp [fetchWeatherCycle, placeName, hnd]

/-- Helper: once permission is granted and coordinates are obtained, the
published place is exactly `placeName` of the geocoding outcome,
whatever the HTTP fetch does. -/
theorem cycle_place_of_granted (dtOf : String → ℤ) (c : Coords)
    (geo : Except String (Option (List Address)))
    (ht : Except String OpenMeteoResponse) :
    (fetchWeatherCycle dtOf ⟨true, Except.ok c, geo, ht⟩).place = placeName geo := by
  cases ht with
  | error m => simp [fetchWeatherCycle]
  | ok resp =>
    cases hnd : normalizeDaily dtOf resp.daily with
    | error m => simp [fetchWeatherCycle, hnd]
    | ok mapped => simp [fetchWeatherCycle, hnd]

/-- Helper: an address whose city, region and country are all null or
empty renders as the fallback place name. -/
theorem niceName_blank_eq (a : Address) (h1 : blankField a.city)
    (h2 : blankField a.region) (h3 : blankField a.country) :
    niceName a = "Unknown location" := by
  obtain ⟨ci, re, co⟩ := a
  simp only [blankField] at h1 h2 h3
  rcases h1 with rfl | rfl <;> rcases h2 with rfl | rfl <;>
    rcases h3 with rfl | rfl <;> rfl

/-- C10: with permission granted and coordinates obtained, a successful
reverse-geocoding call with a null or empty candidate list, or whose
first candidate has only null or empty city, region and country fields,
publishes the literal place "Unknown location"; the place is absent
exactly when the reverse-geocoding call throws. -/
theorem unknown_location_fallback (dtOf : String → ℤ) (c : Coords)
    (geo : Except String (Option (List Address)))
    (ht : Except String OpenMeteoResponse) :
    ((geo = Except.ok none ∨ geo = Except.ok (some []) →
        (fetchWeatherCycle dtOf ⟨true, Except.ok c, geo, ht⟩).place =
          some "Unknown location") ∧
     (∀ addr rest, geo = Except.ok (some (addr :: rest)) →
        blankField addr.city → blankField addr.region → blankField addr.country →
        (fetchWeatherCycle dtOf ⟨true, Except.ok c, geo, ht⟩).place =
          some "Unknown location") ∧
     ((fetchWeatherCycle dtOf ⟨true, Except.ok c, geo, ht⟩).place = none ↔
        ∃ msg, geo = Except.error msg)) := by
  refine ⟨?_, ?_, ?_⟩
  · rintro (rfl | rfl) <;> rw [cycle_place_of_granted] <;> rfl
  · rintro addr rest rfl hb1 hb2 hb3
    rw [cycle_place_of_granted]
    show some (niceName addr) = some "Unknown location"
    rw [niceName_blank_eq addr hb1 hb2 hb3]
  · rw [cycle_place_of_granted]
    cases geo with
    | error m => simp [placeName]
    | ok r =>
      rcases r with _ | r2
      · simp [placeName]
      · rcases r2 with _ | ⟨a, l⟩ <;> simp [placeName]

end WeatherCarCover
